import Mathlib

/-!
# Stackdriver exporter: self-monitoring views and the stats example program

A shallow embedding of `stackdriver_stats.go` (the exporter's predefined
measure and views) and of `examples/stats/main.go` (the example program that
records the size of processed videos), followed by the properties proved
about them.

Go values are embedded as follows: strings are `String`, `int`/`int64`
are `Int`, `time.Duration` is an `Int` number of nanoseconds, a pointer that
may be nil is an `Option`, and a slice is a `List`.
-/

namespace Stackdriver

set_option linter.unusedVariables false

/-! ## Measures, aggregations and views (`stats`, `stats/view`, `tag`) -/

/-- Units of a measure (`stats.UnitDimensionless`, `stats.UnitBytes`). -/
inductive MeasureUnit where
  | UnitDimensionless
  | UnitBytes
  deriving DecidableEq, Repr

/-- An integer measure as created by `stats.Int64(name, description, unit)`. -/
structure Measure where
  Name : String
  Description : String
  Unit : MeasureUnit
  deriving DecidableEq, Repr

/-- The constructor `stats.Int64`. -/
def Int64 (name description : String) (unit : MeasureUnit) : Measure :=
  { Name := name, Description := description, Unit := unit }

/-- Aggregation kinds: `view.Count()`, `view.Sum()`, `view.LastValue()` and
`view.Distribution(bounds...)`. -/
inductive Aggregation where
  | Count
  | Sum
  | LastValue
  | Distribution (bounds : List Int)
  deriving DecidableEq, Repr

/-- A `tag.Key` is identified by its name. -/
structure Key where
  name : String
  deriving DecidableEq, Repr

/-- The composite literal `view.View` with the fields the sources set; a field
that a literal leaves out has Go's zero value (the empty slice for `TagKeys`). -/
structure View where
  Name : String
  Description : String
  Measure : Measure
  TagKeys : List Key
  Aggregation : Aggregation
  deriving DecidableEq, Repr

/-! ## `stackdriver_stats.go` -/

def timeSeriesCountDistribution : Aggregation :=
  Aggregation.Distribution
    [1, 2, 4, 8, 16, 32, 64, 128, 256, 512, 1024, 2048, 4096, 8192, 16384, 32768, 65536]

def timeSeriesPerRequest : Measure :=
  Int64 "contrib.go.opencensus.io/exporter/stackdriver/timeseries_per_request"
    "Number of timeseries sent per request." MeasureUnit.UnitDimensionless

def timeSeriesRequestCountView : View :=
  { Measure := timeSeriesPerRequest
    Name := "contrib.go.opencensus.io/exporter/stackdriver/create_time_series_request_count"
    Description := "Number of create time series request sent"
    TagKeys := []
    Aggregation := Aggregation.Count }

def timeSeriesPerRequestView : View :=
  { Measure := timeSeriesPerRequest
    Name := "contrib.go.opencensus.io/exporter/stackdriver/time_series_per_request"
    Description := "Number of time series packed in create time series request"
    TagKeys := []
    Aggregation := timeSeriesCountDistribution }

def stackdriverViews : List View :=
  [timeSeriesRequestCountView, timeSeriesPerRequestView]

/-- Modelled from the spec: the tag projection of a recording onto a view, the
values of the view's tag keys in the recording's tag set, in the order of the
keys (a key the tag set lacks contributes `none`). The library function that
computes it is not part of the sources. -/
def tagProjection (keys : List Key) (tags : List (String × String)) : List (Option String) :=
  keys.map (fun k => (tags.find? (fun kv => kv.1 == k.name)).map Prod.snd)

/-! ## Tracing and contexts (`trace`, `context`) -/

/-- Modelled from the spec: the identity of a span (trace id, span id) with its
sampling decision, as returned by the library method `Span.SpanContext()`. The
type is declared in the tracing library, which is not part of the sources. -/
structure SpanContext where
  TraceID : Nat
  SpanID : Nat
  Sampled : Bool
  deriving DecidableEq, Repr

/-- The library method `SpanContext.IsSampled()`: the sampling decision. -/
def SpanContext.IsSampled (sc : SpanContext) : Bool := sc.Sampled

/-- Modelled from the spec: a span (name, identity with sampling decision,
parent span id). Times and attributes are left out: the sources set none. -/
structure Span where
  Name : String
  spanContext : SpanContext
  ParentSpanID : Option Nat
  deriving DecidableEq, Repr

/-- The library method `Span.SpanContext()`. -/
def Span.SpanContext (s : Span) : SpanContext := s.spanContext

/-- A `context.Context`, reduced to what the sources read from it: the span it
carries (`none` when `trace.FromContext` returns nil) and its tag set. -/
structure Context where
  span : Option Span
  tags : List (String × String)
  deriving DecidableEq, Repr

/-- The context `context.Background()`: no span, no tags. -/
def Background : Context := { span := none, tags := [] }

/-- The library function `trace.FromContext`. -/
def FromContext (ctx : Context) : Option Span := ctx.span

/-- The samplers `trace.AlwaysSample()` and `trace.NeverSample()`. -/
inductive Sampler where
  | AlwaysSample
  | NeverSample
  deriving DecidableEq, Repr

/-- The decision of a sampler. -/
def Sampler.Sample : Sampler → Bool
  | Sampler.AlwaysSample => true
  | Sampler.NeverSample => false

/-! ## The aggregator (`stats.Record`, `view.Register`) -/

/-- A measurement as created by the measure method `M`: a measure and a value. -/
structure Measurement where
  Measure : Measure
  Value : Int
  deriving DecidableEq, Repr

/-- The method `(*Int64Measure).M`. -/
def Measure.M (m : Measure) (v : Int) : Measurement := { Measure := m, Value := v }

/-- Modelled from the spec: an Accumulator, the running aggregate (count, sum,
distribution histogram) of one tag combination of a view. The sum is kept as an
exact integer (the measured values are `int64`). The library type is not part
of the sources. -/
structure Accumulator where
  count : Nat
  sum : Int
  buckets : List Nat
  deriving DecidableEq, Repr

/-- Modelled from the spec: the histogram of an aggregation kind has one bucket
per interval delimited by the bucket boundaries of a Distribution, and none for
the other kinds. -/
def Aggregation.bounds : Aggregation → List Int
  | Aggregation.Distribution bounds => bounds
  | _ => []

/-- Modelled from the spec: the Accumulator created for a tag combination that
is observed for the first time. -/
def Accumulator.fresh (agg : Aggregation) : Accumulator :=
  match agg with
  | Aggregation.Distribution bounds =>
    { count := 0, sum := 0, buckets := List.replicate (bounds.length + 1) 0 }
  | _ => { count := 0, sum := 0, buckets := [] }

/-- Modelled from the spec: the histogram bucket of a value, counted from zero:
the number of bucket boundaries that are not above the value. -/
def bucketIndex (bounds : List Int) (v : Int) : Nat :=
  (bounds.filter (fun b => decide (b ≤ v))).length

/-- Modelled from the spec: the update of an Accumulator on a matching
Measurement: one more recording, its value added to the sum, its histogram
bucket incremented. -/
def Accumulator.update (agg : Aggregation) (a : Accumulator) (v : Int) : Accumulator :=
  { count := a.count + 1
    sum := a.sum + v
    buckets := a.buckets.modify (fun c => c + 1) (bucketIndex agg.bounds v) }

/-- Modelled from the spec: a registered View with the Accumulators it owns,
one per distinct observed tag-value combination. -/
structure ViewState where
  view : View
  rows : List (List (Option String) × Accumulator)
  deriving DecidableEq, Repr

/-- Modelled from the spec: locate or create the Accumulator of a tag
combination and update it. -/
def upsert (agg : Aggregation) (key : List (Option String)) (v : Int) :
    List (List (Option String) × Accumulator) → List (List (Option String) × Accumulator)
  | [] => [(key, (Accumulator.fresh agg).update agg v)]
  | (k, a) :: rest =>
    if k = key then (k, a.update agg v) :: rest else (k, a) :: upsert agg key v rest

/-- Modelled from the spec: what `Record` does to one registered view. A view
subscribed to the measurement's metric updates the Accumulator of the
measurement's tag projection; any other view is left as it is. -/
def ViewState.record (tags : List (String × String)) (m : Measurement) (vs : ViewState) :
    ViewState :=
  if vs.view.Measure.Name = m.Measure.Name then
    { vs with rows := upsert vs.view.Aggregation (tagProjection vs.view.TagKeys tags) m.Value vs.rows }
  else vs

/-! ## Attachments (`metricdata`) -/

/-- A value stored in an attachment map (`interface{}`); the sources store
span contexts only. -/
inductive AttachmentValue where
  | spanContext (sc : SpanContext)
  | text (s : String)
  deriving DecidableEq, Repr

/-- The type `metricdata.Attachments`, a Go `map[string]interface{}`: `none` is
the nil map, `some kvs` a non-nil map holding the entries `kvs` (at most one
entry per key). -/
abbrev Attachments := Option (List (String × AttachmentValue))

/-- The constant `metricdata.AttachmentKeySpanContext`. Its declaration is not
part of the sources; no property below depends on its value. -/
def AttachmentKeySpanContext : String := "SpanContext"

/-- The map assignment `m[k] = v` on a non-nil map. -/
def mapAssign (m : List (String × AttachmentValue)) (k : String) (v : AttachmentValue) :
    List (String × AttachmentValue) :=
  m.filter (fun kv => kv.1 != k) ++ [(k, v)]

/-- The keys of an attachment map (none for the nil map). -/
def Attachments.keys (a : Attachments) : List String :=
  match a with
  | none => []
  | some kvs => kvs.map Prod.fst

/-- The map lookup `m[k]`. -/
def Attachments.lookup (a : Attachments) (k : String) : Option AttachmentValue :=
  match a with
  | none => none
  | some kvs => (kvs.find? (fun kv => kv.1 == k)).map Prod.snd

/-- The number of entries `len(m)`. -/
def Attachments.len (a : Attachments) : Nat :=
  match a with
  | none => 0
  | some kvs => kvs.length

/-! ## `examples/stats/main.go`: `getSpanCtxAttachment` -/

def getSpanCtxAttachment (ctx : Context) : Attachments :=
  let attachments : List (String × AttachmentValue) := []
  match FromContext ctx with
  | none => some attachments
  | some span =>
    let spanCtx := span.SpanContext
    if spanCtx.IsSampled then
      some (mapAssign attachments AttachmentKeySpanContext (AttachmentValue.spanContext spanCtx))
    else
      some attachments

/-! ## The process state and the library calls -/

/-- A `time.Duration`: a number of nanoseconds. -/
abbrev Duration := Int

def Microsecond : Duration := 1000

def Second : Duration := 1000000000

/-- The result of `monitoredresource.Autodetect()`, which depends on where the
program runs: a resource type and its labels. -/
structure MonitoredResource where
  kind : String
  labels : List (String × String)
  deriving DecidableEq, Repr

/-- The fields of `stackdriver.Options` that `main` sets, and the flush
interval. A field that a literal leaves out has Go's zero value.
Modelled from the spec: `FlushInterval` is the recognised option that sets the
reporting period; the declaration of the options type is not part of the
sources. -/
structure Options where
  ProjectID : String
  MonitoredResource : MonitoredResource
  BundleDelayThreshold : Duration
  BundleCountThreshold : Int
  TraceSpansBufferMaxBytes : Int
  FlushInterval : Duration
  deriving DecidableEq, Repr

/-- Modelled from the spec: the default of `FlushInterval`, 60 seconds. The
constant is declared in the exporter library, which is not part of the
sources. -/
def defaultFlushInterval : Duration := 60 * Second

/-- Modelled from the spec: the reporting duration in force for some options,
given the default: the default when `FlushInterval` is left at zero. -/
def reportingDurationWith (default : Duration) (o : Options) : Duration :=
  if o.FlushInterval = 0 then default else o.FlushInterval

/-- The reporting duration with the default of the spec. -/
def reportingDuration (o : Options) : Duration :=
  reportingDurationWith defaultFlushInterval o

/-- An exporter value as returned by `stackdriver.NewExporter`. -/
structure Exporter where
  o : Options
  deriving DecidableEq, Repr

/-- The calls that the example program makes into its libraries, in the order
it makes them. An exporter argument is the pointer the program holds: `none`
is the nil pointer. `Defer` is the statement `defer f()`, which binds the call
without running it. -/
inductive Call where
  | ApplyConfig (DefaultSampler : Sampler)
  | NewExporter (o : Options)
  | StartMetricsExporter (se : Option Exporter)
  | StopMetricsExporter (se : Option Exporter)
  | Defer (c : Call)
  | Fatal (msg : String)
  | Register (v : View)
  | RegisterExporter (se : Option Exporter)
  | Println (msg : String)
  | Sleep (d : Duration)
  | StartSpan (name : String)
  | RecordWithOptions (ms : List Measurement) (attachments : Attachments)
  | End (span : Span)
  deriving DecidableEq, Repr

/-- The state of the process: the tracing configuration, the source of span
ids, the registered views with their Accumulators, and the calls made so
far. -/
structure World where
  DefaultSampler : Sampler
  nextSpanID : Nat
  views : List ViewState
  calls : List Call
  deriving DecidableEq, Repr

/-- The library call `trace.ApplyConfig(trace.Config{DefaultSampler: s})`. -/
def ApplyConfig (s : Sampler) (w : World) : World :=
  { w with DefaultSampler := s, calls := w.calls ++ [Call.ApplyConfig s] }

/-- What `trace.StartSpan` returns, with the state it leaves. -/
structure Started where
  ctx : Context
  span : Span
  world : World

/-- Modelled from the spec: `trace.StartSpan(ctx, name)` creates a span with a
new span id, the trace id and span id of the span `ctx` carries as its parent
(when there is one) and a sampling decision, and returns it with a context
that carries it. A child span inherits the decision of its parent, as the
tracing library has it; a span without a parent gets the decision of the
configured sampler. -/
def StartSpan (ctx : Context) (name : String) (w : World) : Started :=
  let span : Span :=
    { Name := name
      spanContext :=
        { TraceID := match ctx.span with
            | some p => p.spanContext.TraceID
            | none => w.nextSpanID
          SpanID := w.nextSpanID
          Sampled := match ctx.span with
            | some p => p.spanContext.Sampled
            | none => w.DefaultSampler.Sample }
      ParentSpanID := ctx.span.map (fun p => p.spanContext.SpanID) }
  { ctx := { ctx with span := some span }
    span := span
    world := { w with nextSpanID := w.nextSpanID + 1, calls := w.calls ++ [Call.StartSpan name] } }

/-- The library call `span.End()`. -/
def Span.End (span : Span) (w : World) : World :=
  { w with calls := w.calls ++ [Call.End span] }

/-- Modelled from the spec: `Record` looks up all views subscribed to the
metric of each measurement and updates, in each, the Accumulator of the tag
projection of the tags that `ctx` carries. -/
def RecordWithOptions (ctx : Context) (ms : List Measurement) (attachments : Attachments)
    (w : World) : World :=
  { w with
    views := ms.foldl (fun vs m => vs.map (ViewState.record ctx.tags m)) w.views
    calls := w.calls ++ [Call.RecordWithOptions ms attachments] }

/-- Modelled from the spec: a view is registered once and its name is a unique
key: `view.Register` returns an error for a name that is registered already,
and otherwise adds the view with no Accumulator. -/
def Register (v : View) (w : World) : World × Option String :=
  if w.views.any (fun vs => vs.view.Name == v.Name) then
    ({ w with calls := w.calls ++ [Call.Register v] }, some "view already registered")
  else
    ({ w with views := w.views ++ [{ view := v, rows := [] }]
              calls := w.calls ++ [Call.Register v] }, none)

/-- Modelled from the spec: `Snapshot(view)`, a copy of all Accumulators of the
view of that name, each with its tag combination. -/
def Snapshot (name : String) (w : World) : List (List (Option String) × Accumulator) :=
  match w.views.find? (fun vs => vs.view.Name == name) with
  | some vs => vs.rows
  | none => []

/-- The count of a snapshot: the recordings over all its Accumulators. -/
def snapshotCount (rows : List (List (Option String) × Accumulator)) : Nat :=
  (rows.map (fun r => r.2.count)).sum

/-- The sum of a snapshot: the sum over all its Accumulators. -/
def snapshotSum (rows : List (List (Option String) × Accumulator)) : Int :=
  (rows.map (fun r => r.2.sum)).sum

/-- A library call that is recorded as made. What the library does inside it
is not part of the sources and is not modelled; the one outcome that changes
the control flow of `main`, the panic of a method called on the nil exporter,
is handled in `main`. -/
def call (c : Call) (w : World) : World :=
  { w with calls := w.calls ++ [c] }

/-! ## `examples/stats/main.go`: `processVideo` and `main` -/

def videoSize : Measure :=
  Int64 "my.org/measure/video_size" "size of processed videos" MeasureUnit.UnitBytes

def processVideo (ctx : Context) (attempt : Int) (w : World) : World :=
  let started := StartSpan ctx "example.com/ProcessVideo" w
  let ctx := started.ctx
  let span := started.span
  -- the deferred `span.End()` runs when the function returns
  span.End
    (RecordWithOptions ctx [videoSize.M 25648] (getSpanCtxAttachment ctx) started.world)

/-- The view that `main` registers. -/
def videoSizeCumView : View :=
  { Name := "my.org/views/video_size_cum"
    Description := "processed video size over time"
    Measure := videoSize
    TagKeys := []
    Aggregation := Aggregation.Distribution [2 ^ 16, 2 ^ 32] }

/-- The options that `main` passes to `stackdriver.NewExporter`. -/
def mainOptions (getenv : String → String) (autodetect : MonitoredResource) : Options :=
  { ProjectID := getenv "GOOGLE_CLOUD_PROJECT"
    MonitoredResource := autodetect
    BundleDelayThreshold := 2 * Second
    BundleCountThreshold := 10000
    TraceSpansBufferMaxBytes := 20 * 1024 * 1024
    FlushInterval := 0 }

/-- A loop `for i := 0; i < n; i++ { body }`. -/
def forLoop (n : Nat) (body : Nat → World → World) (w : World) : World :=
  (List.range n).foldl (fun w i => body i w) w

/-- The body of the loop of `main`: `go func() { processVideo(ctx, i) }()`
followed by the sleep. The goroutine is run to completion where it is started:
the interleaving of goroutines is not modelled. -/
def mainLoopBody (ctx : Context) (i : Nat) (w : World) : World :=
  call (Call.Sleep (80 * Microsecond)) (processVideo ctx i w)

/-- How the program ends: `main` returns, `log.Fatal` exits the process, or a
nil pointer dereference panics. -/
inductive Exit where
  | returned
  | fatal
  | panic
  deriving DecidableEq, Repr

/-- The function `main`. Its inputs are what the environment decides: the
environment variables, the detected resource and the result `(se, err)` of
`stackdriver.NewExporter`. The result is the final state, with the calls made
in order, and how the program ended. The method `StartMetricsExporter`
dereferences its receiver: called on the nil exporter it panics, before the
`defer` statement is reached, so no deferred call runs. `log.Fatal` exits
without running the deferred call; a return from `main` runs it. -/
def main (getenv : String → String) (autodetect : MonitoredResource)
    (NewExporter : Options → Option Exporter × Option String) (w : World) : World × Exit :=
  let ctx := Background
  let w := ApplyConfig Sampler.AlwaysSample w
  let o := mainOptions getenv autodetect
  let se := (NewExporter o).1
  let err := (NewExporter o).2
  let w := call (Call.NewExporter o) w
  let w := call (Call.StartMetricsExporter se) w
  match se with
  | none => (w, Exit.panic)
  | some _ =>
    let w := call (Call.Defer (Call.StopMetricsExporter se)) w
    match err with
    | some e => (call (Call.Fatal e) w, Exit.fatal)
    | none =>
      let r := Register videoSizeCumView w
      match r.2 with
      | some e => (call (Call.Fatal ("Cannot subscribe to the view: " ++ e)) r.1, Exit.fatal)
      | none =>
        let w := call (Call.RegisterExporter se) r.1
        let w := call (Call.Println "Start sending") w
        let w := forLoop 500000 (mainLoopBody ctx) w
        let w := call (Call.Println "Done sending") w
        let w := call (Call.Println "Wait longer than the reporting duration...") w
        let w := call (Call.Sleep (10 * Second)) w
        (call (Call.StopMetricsExporter se) w, Exit.returned)

/-- The duration of the last sleep among some calls. -/
def lastSleep (cs : List Call) : Option Duration :=
  cs.reverse.findSome? (fun c => match c with
    | Call.Sleep d => some d
    | _ => none)

/-- The state of a process at its start, for a default sampler and a first
span id: no view is registered and no call has been made. -/
def freshWorld (s : Sampler) (id : Nat) : World :=
  { DefaultSampler := s, nextSpanID := id, views := [], calls := [] }

/-- The Accumulators of the view of `main` after `k` recordings of a video
size of 25648 under the empty tag combination. -/
def videoRows (k : Nat) : List (List (Option String) × Accumulator) :=
  if k = 0 then [] else [([], { count := k, sum := 25648 * (k : Int), buckets := [k, 0, 0] })]

/-- The state in which `main` leaves its loop, when `NewExporter` returns no
error and the process starts fresh. -/
def mainAfterLoop (getenv : String → String) (autodetect : MonitoredResource)
    (se : Option Exporter) (s : Sampler) (id : Nat) : World :=
  forLoop 500000 (mainLoopBody Background)
    (call (Call.Println "Start sending")
      (call (Call.RegisterExporter se)
        (Register videoSizeCumView
          (call (Call.Defer (Call.StopMetricsExporter se))
            (call (Call.StartMetricsExporter se)
              (call (Call.NewExporter (mainOptions getenv autodetect))
                (ApplyConfig Sampler.AlwaysSample (freshWorld s id)))))).1))

/-! ## Properties of the predefined views -/

/-- C4: `stackdriverViews` is exactly the list of the two predefined views, and
every view in it collects data for the measure `timeSeriesPerRequest` with an
empty list of tag keys, so that every recording has the same (empty) tag
projection. -/
theorem stackdriverViews_measure_and_keys :
    stackdriverViews = [timeSeriesRequestCountView, timeSeriesPerRequestView] ∧
    ∀ v ∈ stackdriverViews,
      v.Measure = timeSeriesPerRequest ∧ v.TagKeys = [] ∧
      ∀ tags tags2, tagProjection v.TagKeys tags = tagProjection v.TagKeys tags2 := by
  refine ⟨rfl, ?_⟩
  intro v hv
  simp only [stackdriverViews, List.mem_cons, List.mem_singleton, List.not_mem_nil,
    or_false] at hv
  rcases hv with rfl | rfl
  · exact ⟨rfl, rfl, fun _ _ => rfl⟩
  · exact ⟨rfl, rfl, fun _ _ => rfl⟩

/-- C5: the names of the views in `stackdriverViews` are pairwise distinct: the
list of names has no duplicate, and two views of the list with the same name
are the same view. -/
theorem stackdriverViews_names_distinct :
    (stackdriverViews.map (fun v => v.Name)).Nodup ∧
    ∀ v ∈ stackdriverViews, ∀ v2 ∈ stackdriverViews, v.Name = v2.Name → v = v2 := by
  refine ⟨by decide, ?_⟩
  intro v hv v2 hv2 h
  simp only [stackdriverViews, List.mem_cons, List.mem_singleton, List.not_mem_nil,
    or_false] at hv hv2
  rcases hv with rfl | rfl <;> rcases hv2 with rfl | rfl
  · rfl
  · exact absurd h (by decide)
  · exact absurd h (by decide)
  · rfl

/-! ## Properties of `getSpanCtxAttachment` -/

/-- C7: for every context, `getSpanCtxAttachment` returns a non-nil map that
contains the key `AttachmentKeySpanContext` exactly when the context carries a
span whose span context is sampled; the value under the key is then that span
context; the map holds no other key, has at most one entry, and is empty when
the context carries no span. -/
theorem getSpanCtxAttachment_spec (ctx : Context) :
    (∃ m, getSpanCtxAttachment ctx = some m) ∧
    (AttachmentKeySpanContext ∈ (getSpanCtxAttachment ctx).keys ↔
      ∃ span, FromContext ctx = some span ∧ span.SpanContext.IsSampled = true) ∧
    (∀ span, FromContext ctx = some span → span.SpanContext.IsSampled = true →
      (getSpanCtxAttachment ctx).lookup AttachmentKeySpanContext =
        some (AttachmentValue.spanContext span.SpanContext)) ∧
    (∀ k ∈ (getSpanCtxAttachment ctx).keys, k = AttachmentKeySpanContext) ∧
    (getSpanCtxAttachment ctx).len ≤ 1 ∧
    (FromContext ctx = none → getSpanCtxAttachment ctx = some []) := by
  unfold getSpanCtxAttachment
  cases hspan : FromContext ctx with
  | none => simp [Attachments.keys, Attachments.len]
  | some span =>
    cases hs : span.SpanContext.IsSampled with
    | false => simp [hs, Attachments.keys, Attachments.len]
    | true =>
      simp [hs, Attachments.keys, Attachments.len, Attachments.lookup, mapAssign]

/-! ## Properties of `processVideo` -/

/-- C8: `processVideo` does not depend on its `attempt` argument: from the same
context and state, two calls with different attempts leave the same state, and
the calls either makes are the start of a span named
`example.com/ProcessVideo`, the recording of the one measurement
`videoSize = 25648` with the attachments of the new context, and the end of
that span. -/
theorem processVideo_attempt_irrelevant (ctx : Context) (a b : Int) (w : World) :
    processVideo ctx a w = processVideo ctx b w ∧
    (processVideo ctx a w).calls = w.calls ++
      [Call.StartSpan "example.com/ProcessVideo",
       Call.RecordWithOptions [videoSize.M 25648]
         (getSpanCtxAttachment (StartSpan ctx "example.com/ProcessVideo" w).ctx),
       Call.End (StartSpan ctx "example.com/ProcessVideo" w).span] := by
  refine ⟨rfl, ?_⟩
  simp [processVideo, Span.End, RecordWithOptions, StartSpan]

/-! ## Recording on the view of `main` -/

theorem call_views (c : Call) (w : World) : (call c w).views = w.views := rfl

theorem call_calls (c : Call) (w : World) : (call c w).calls = w.calls ++ [c] := rfl

/-- A call of `processVideo` records one video size of 25648 on every view,
under the tags of the context. -/
theorem processVideo_views (ctx : Context) (a : Int) (w : World) :
    (processVideo ctx a w).views =
      w.views.map (ViewState.record ctx.tags (videoSize.M 25648)) := by
  simp [processVideo, Span.End, RecordWithOptions, StartSpan]

theorem mainLoopBody_views (ctx : Context) (i : Nat) (w : World) :
    (mainLoopBody ctx i w).views =
      w.views.map (ViewState.record ctx.tags (videoSize.M 25648)) := by
  simp [mainLoopBody, call_views, processVideo_views]

theorem forLoop_zero (body : Nat → World → World) (w : World) : forLoop 0 body w = w := rfl

theorem forLoop_succ (n : Nat) (body : Nat → World → World) (w : World) :
    forLoop (n + 1) body w = body n (forLoop n body w) := by
  simp [forLoop, List.range_succ, List.foldl_append]

/-- One more recording on the Accumulators of the view of `main`. -/
theorem upsert_videoRows (k : Nat) :
    upsert videoSizeCumView.Aggregation [] 25648 (videoRows k) = videoRows (k + 1) := by
  by_cases hk : k = 0
  · subst hk
    simp [videoRows, upsert, Accumulator.update, Accumulator.fresh, videoSizeCumView,
      Aggregation.bounds, bucketIndex, List.modify]
  · simp [videoRows, hk, upsert, Accumulator.update, videoSizeCumView,
      Aggregation.bounds, bucketIndex, List.modify]
    ring

/-- The view of `main` after one more recording. -/
theorem record_videoRows (tags : List (String × String)) (k : Nat) :
    ViewState.record tags (videoSize.M 25648) { view := videoSizeCumView, rows := videoRows k } =
      { view := videoSizeCumView, rows := videoRows (k + 1) } := by
  have h := upsert_videoRows k
  simp only [ViewState.record, Measure.M]
  rw [if_pos (show videoSizeCumView.Measure.Name = videoSize.Name from rfl)]
  have hproj : tagProjection videoSizeCumView.TagKeys tags = [] := rfl
  rw [hproj, h]

/-- A loop whose body records one video size per round leaves, after `n`
rounds, `n` more recordings on the view of `main`. -/
theorem forLoop_views (tags : List (String × String)) (body : Nat → World → World)
    (hbody : ∀ i w, (body i w).views = w.views.map (ViewState.record tags (videoSize.M 25648)))
    (w : World) (k : Nat) (hw : w.views = [{ view := videoSizeCumView, rows := videoRows k }])
    (n : Nat) :
    (forLoop n body w).views = [{ view := videoSizeCumView, rows := videoRows (k + n) }] := by
  induction n with
  | zero => simpa [forLoop_zero] using hw
  | succ n ih =>
    rw [forLoop_succ, hbody, ih]
    simp only [List.map_cons, List.map_nil, record_videoRows]
    rfl

theorem snapshot_videoRows (w : World) (k : Nat)
    (hw : w.views = [{ view := videoSizeCumView, rows := videoRows k }]) :
    Snapshot "my.org/views/video_size_cum" w = videoRows k := by
  simp [Snapshot, hw, videoSizeCumView]

theorem snapshotCount_videoRows (k : Nat) : snapshotCount (videoRows k) = k := by
  by_cases hk : k = 0 <;> simp [videoRows, snapshotCount, hk]

theorem snapshotSum_videoRows (k : Nat) : snapshotSum (videoRows k) = 25648 * (k : Int) := by
  by_cases hk : k = 0 <;> simp [videoRows, snapshotSum, hk]

theorem register_fresh_views (s : Sampler) (id : Nat) (cs : List Call) :
    (Register videoSizeCumView
        { DefaultSampler := s, nextSpanID := id, views := [], calls := cs }).1.views =
      [{ view := videoSizeCumView, rows := videoRows 0 }] := by
  simp [Register, videoRows]

/-- The run of `main` when `NewExporter` returns an exporter and no error and the
process starts fresh: the loop, then the two log lines, the sleep of 10 seconds and the
deferred stop of the exporter. -/
theorem main_ok (getenv : String → String) (autodetect : MonitoredResource)
    (se : Exporter) (s : Sampler) (id : Nat) :
    main getenv autodetect (fun _ => (some se, none)) (freshWorld s id) =
      (call (Call.StopMetricsExporter (some se))
        (call (Call.Sleep (10 * Second))
          (call (Call.Println "Wait longer than the reporting duration...")
            (call (Call.Println "Done sending")
              (mainAfterLoop getenv autodetect (some se) s id)))), Exit.returned) := by
  have hreg : (Register videoSizeCumView
      (call (Call.Defer (Call.StopMetricsExporter (some se)))
        (call (Call.StartMetricsExporter (some se))
          (call (Call.NewExporter (mainOptions getenv autodetect))
            (ApplyConfig Sampler.AlwaysSample (freshWorld s id)))))).2 = none := by
    simp [Register, call, ApplyConfig, freshWorld]
  simp only [main, mainAfterLoop, hreg]

theorem mainAfterLoop_views (getenv : String → String) (autodetect : MonitoredResource)
    (se : Option Exporter) (s : Sampler) (id : Nat) :
    (mainAfterLoop getenv autodetect se s id).views =
      [{ view := videoSizeCumView, rows := videoRows 500000 }] := by
  have h := forLoop_views Background.tags (mainLoopBody Background)
    (mainLoopBody_views Background)
    (call (Call.Println "Start sending")
      (call (Call.RegisterExporter se)
        (Register videoSizeCumView
          (call (Call.Defer (Call.StopMetricsExporter se))
            (call (Call.StartMetricsExporter se)
              (call (Call.NewExporter (mainOptions getenv autodetect))
                (ApplyConfig Sampler.AlwaysSample (freshWorld s id)))))).1)) 0
    (by simp [call_views, call, ApplyConfig, freshWorld, Register, videoRows]) 500000
  simpa [mainAfterLoop] using h

theorem fst_pair (w : World) (e : Exit) : (w, e).1 = w := rfl

theorem snd_pair (w : World) (e : Exit) : (w, e).2 = e := rfl

/-- The views at the end of a run of `main` that starts fresh and gets an
exporter and no error from `NewExporter`. -/
theorem main_ok_views (getenv : String → String) (autodetect : MonitoredResource)
    (se : Exporter) (s : Sampler) (id : Nat) :
    (main getenv autodetect (fun _ => (some se, none)) (freshWorld s id)).1.views =
      [{ view := videoSizeCumView, rows := videoRows 500000 }] := by
  rw [main_ok, fst_pair, call_views, call_views, call_views, call_views, mainAfterLoop_views]

/-- The calls at the end of a run of `main` that starts fresh and gets an
exporter and no error from `NewExporter`: after the loop come the two log lines, the sleep of 10
seconds and the deferred stop of the exporter. -/
theorem main_ok_calls (getenv : String → String) (autodetect : MonitoredResource)
    (se : Exporter) (s : Sampler) (id : Nat) :
    (main getenv autodetect (fun _ => (some se, none)) (freshWorld s id)).1.calls =
      (mainAfterLoop getenv autodetect (some se) s id).calls ++
        [Call.Println "Done sending",
         Call.Println "Wait longer than the reporting duration...",
         Call.Sleep (10 * Second),
         Call.StopMetricsExporter (some se)] := by
  rw [main_ok, fst_pair, call_calls, call_calls, call_calls, call_calls]
  generalize (mainAfterLoop getenv autodetect (some se) s id).calls = cs
  simp

theorem lastSleep_append_tail (cs : List Call) (c1 c2 c4 : Call) (d : Duration)
    (h4 : ∀ d2, c4 ≠ Call.Sleep d2) :
    lastSleep (cs ++ [c1, c2, Call.Sleep d, c4]) = some d := by
  cases c4 <;> simp [lastSleep] at h4 ⊢

/-- C2: for every `n`, after `n` calls of `processVideo` on a state in which
exactly the view `my.org/views/video_size_cum` is registered, the snapshot of
the view holds `n` recordings that sum to `25648 * n`, all under the empty tag
combination; and a run of `main` that starts fresh and gets an exporter and
no error from `NewExporter` ends with a count of 500000 and a sum of
12824000000. -/
theorem processVideo_snapshot_count_sum :
    (∀ (ctx : Context) (s : Sampler) (id : Nat) (cs : List Call) (n : Nat),
      Snapshot "my.org/views/video_size_cum"
          (forLoop n (fun i => processVideo ctx i)
            (Register videoSizeCumView
              { DefaultSampler := s, nextSpanID := id, views := [], calls := cs }).1) =
        (if n = 0 then []
         else [([], { count := n, sum := 25648 * (n : Int), buckets := [n, 0, 0] })]) ∧
      snapshotCount (Snapshot "my.org/views/video_size_cum"
          (forLoop n (fun i => processVideo ctx i)
            (Register videoSizeCumView
              { DefaultSampler := s, nextSpanID := id, views := [], calls := cs }).1)) = n ∧
      snapshotSum (Snapshot "my.org/views/video_size_cum"
          (forLoop n (fun i => processVideo ctx i)
            (Register videoSizeCumView
              { DefaultSampler := s, nextSpanID := id, views := [], calls := cs }).1)) =
        25648 * (n : Int)) ∧
    (∀ (getenv : String → String) (autodetect : MonitoredResource) (se : Exporter)
        (s : Sampler) (id : Nat),
      snapshotCount (Snapshot "my.org/views/video_size_cum"
          (main getenv autodetect (fun _ => (some se, none)) (freshWorld s id)).1) = 500000 ∧
      snapshotSum (Snapshot "my.org/views/video_size_cum"
          (main getenv autodetect (fun _ => (some se, none)) (freshWorld s id)).1) = 12824000000) := by
  constructor
  · intro ctx s id cs n
    have hv := forLoop_views ctx.tags (fun i => processVideo ctx i)
      (fun i w => processVideo_views ctx i w)
      (Register videoSizeCumView
        { DefaultSampler := s, nextSpanID := id, views := [], calls := cs }).1 0
      (register_fresh_views s id cs) n
    rw [Nat.zero_add] at hv
    rw [snapshot_videoRows _ n hv]
    exact ⟨rfl, snapshotCount_videoRows n, snapshotSum_videoRows n⟩
  · intro getenv autodetect se s id
    have hv := main_ok_views getenv autodetect se s id
    rw [snapshot_videoRows _ 500000 hv, snapshotCount_videoRows, snapshotSum_videoRows]
    exact ⟨rfl, by norm_num⟩

/-! ## The run of `main` -/

/-- C1: when `NewExporter` returns an error `e`, `main` has called
`StartMetricsExporter` on the returned exporter pointer before it tests the
error. With the nil pointer, the result `NewExporter` gives with an error, the
calls are `ApplyConfig`, `NewExporter` and `StartMetricsExporter` on nil, and
the program ends there in a panic: neither the `defer` nor `log.Fatal(e)` is
reached. Were the pointer not nil, the calls would go on with the `defer` of
`StopMetricsExporter` on it and only then `Fatal e`. -/
theorem main_error_calls (getenv : String → String) (autodetect : MonitoredResource)
    (e : String) (w : World) :
    main getenv autodetect (fun _ => (none, some e)) w =
      ({ w with
          DefaultSampler := Sampler.AlwaysSample
          calls := w.calls ++
            [Call.ApplyConfig Sampler.AlwaysSample,
             Call.NewExporter (mainOptions getenv autodetect),
             Call.StartMetricsExporter none] }, Exit.panic) ∧
    (main getenv autodetect (fun _ => (none, some e)) w).2 ≠ Exit.fatal ∧
    ∀ se : Exporter,
      main getenv autodetect (fun _ => (some se, some e)) w =
        ({ w with
            DefaultSampler := Sampler.AlwaysSample
            calls := w.calls ++
              [Call.ApplyConfig Sampler.AlwaysSample,
               Call.NewExporter (mainOptions getenv autodetect),
               Call.StartMetricsExporter (some se),
               Call.Defer (Call.StopMetricsExporter (some se)),
               Call.Fatal e] }, Exit.fatal) := by
  refine ⟨?_, ?_, fun se => ?_⟩
  · simp [main, call, ApplyConfig]
  · simp [main]
  · simp [main, call, ApplyConfig]

/-- C6: in a run of `main` that starts fresh and gets an exporter and no error
from `NewExporter`, `main` returns and its last sleep is of 10 seconds; the
options it passes set `BundleDelayThreshold` to 2 seconds and leave the flush
interval at zero, so the reporting duration is the default of 60 seconds, and
the sleep is not longer than it. Whatever the default, the sleep is strictly
longer than the reporting duration exactly when the default is below 10
seconds. -/
theorem main_last_sleep_vs_reporting (getenv : String → String)
    (autodetect : MonitoredResource) (se : Exporter) (s : Sampler) (id : Nat) :
    (main getenv autodetect (fun _ => (some se, none)) (freshWorld s id)).2 = Exit.returned ∧
    lastSleep (main getenv autodetect (fun _ => (some se, none)) (freshWorld s id)).1.calls =
      some (10 * Second) ∧
    (mainOptions getenv autodetect).BundleDelayThreshold = 2 * Second ∧
    (mainOptions getenv autodetect).FlushInterval = 0 ∧
    reportingDuration (mainOptions getenv autodetect) = 60 * Second ∧
    ¬ (reportingDuration (mainOptions getenv autodetect) < 10 * Second) ∧
    ∀ default : Duration,
      reportingDurationWith default (mainOptions getenv autodetect) < 10 * Second ↔
        default < 10 * Second := by
  refine ⟨?_, ?_, rfl, rfl, rfl, ?_, fun default => ?_⟩
  · rw [main_ok, snd_pair]
  · rw [main_ok_calls]
    exact lastSleep_append_tail _ _ _ _ _ (fun d2 h => Call.noConfusion h)
  · simp [reportingDuration, reportingDurationWith, mainOptions, defaultFlushInterval, Second]
  · simp [reportingDurationWith, mainOptions]

end Stackdriver
